import Mathlib

/-!
Verification development for the face-recognition wrapper repository.

Part 1 models the face-region extraction pipeline (orientation corrector,
bounding-box cropper).  The pipeline's source file is not present under
`src/` (only its caller/test is), so the definitions are modelled from the
design spec, faithful to its words.

Part 2 embeds the Rekognition engine logic from `src/face/engine.go`
(collection creation, face indexing, search-result extraction), with the
external AWS calls abstracted as explicit result parameters.
-/

namespace AwsRekognition

/-- Modelled from the spec: a `RasterImage` is an addressable 2D grid of
pixels with width `W`, height `H`, and an access function `pixelAt(x,y)`
returning a color value (colors modelled as `Nat`). -/
structure RasterImage where
  width : Nat
  height : Nat
  pixelAt : Nat → Nat → Nat

/-- Modelled from the spec: the orientation corrector
`correct(src, hint)`, missing from `src/`.  For `NONE` or any
unrecognized hint it returns the source unchanged; for the three rotation
hints it produces a freshly computed buffer whose destination pixel at
`(X,Y)` is looked up at the corresponding source coordinate:
source `(x,y)` lands at `(H-1-y, x)` for ROTATE_90, at `(W-1-x, H-1-y)`
for ROTATE_180, and at `(y, W-1-x)` for ROTATE_270. -/
def correct (src : RasterImage) (hint : String) : RasterImage :=
  if hint = "ROTATE_90" then
    { width := src.height
      height := src.width
      pixelAt := fun X Y => src.pixelAt Y (src.height - 1 - X) }
  else if hint = "ROTATE_180" then
    { width := src.width
      height := src.height
      pixelAt := fun X Y => src.pixelAt (src.width - 1 - X) (src.height - 1 - Y) }
  else if hint = "ROTATE_270" then
    { width := src.height
      height := src.width
      pixelAt := fun X Y => src.pixelAt (src.width - 1 - Y) X }
  else
    src

/-- Modelled from the spec: a normalized bounding box with four fractional
fields, each of which may be absent (pointer-optional in the source). -/
structure NormalizedBoundingBox where
  left : Option ℚ
  top : Option ℚ
  width : Option ℚ
  height : Option ℚ

/-- Modelled from the spec: the error kinds produced by the crop pipeline. -/
inductive CropError where
  | incompleteGeometry
  | invalidCropGeometry
deriving DecidableEq, Repr

/-- Modelled from the spec: an integer pixel rectangle `{x0,y0,x1,y1}`. -/
structure PixelRect where
  x0 : Nat
  y0 : Nat
  x1 : Nat
  y1 : Nat
deriving DecidableEq, Repr

/-- Modelled from the spec: round a coordinate to the nearest integer
(half-way values round up). -/
def roundNearest (q : ℚ) : ℤ :=
  ⌊q + 1 / 2⌋

/-- Modelled from the spec: clamp an integer coordinate independently to
`[0, hi]`. -/
def clampTo (hi : Nat) (v : ℤ) : Nat :=
  (min (hi : ℤ) (max 0 v)).toNat

/-- Round to nearest, then clamp to `[0, hi]` (spec step 5). -/
def roundClamp (hi : Nat) (q : ℚ) : Nat :=
  clampTo hi (roundNearest q)

/-- Modelled from the spec: the proposed rectangle for pixel-space bbox
`(l, t, w, h)` expanded around its center by factor `s`, each corner
rounded to nearest and clamped to the image bounds (spec steps 2-5). -/
def scaledRect (W H : Nat) (l t w h s : ℚ) : PixelRect :=
  let cx := l + w / 2
  let cy := t + h / 2
  let newW := w * s
  let newH := h * s
  { x0 := roundClamp W (cx - newW / 2)
    y0 := roundClamp H (cy - newH / 2)
    x1 := roundClamp W (cx + newW / 2)
    y1 := roundClamp H (cy + newH / 2) }

/-- A rectangle is degenerate when it has zero or negative width or
height. -/
def degenerate (r : PixelRect) : Bool :=
  r.x1 ≤ r.x0 || r.y1 ≤ r.y0

/-- Modelled from the spec: compute the final crop rectangle for
`cropScaled`, missing from `src/`.  Fails with `IncompleteGeometry` when
any bbox field is absent; converts the bbox to pixel space, expands around
the center by `scale` (treated as `1` when `scale ≤ 0`), rounds and clamps;
on a degenerate result recomputes from the unscaled bbox, and fails with
`InvalidCropGeometry` only when that is degenerate too (spec steps 1-6). -/
def cropRect (W H : Nat) (bbox : NormalizedBoundingBox) (scale : ℚ) :
    Except CropError PixelRect :=
  match bbox.left, bbox.top, bbox.width, bbox.height with
  | some bl, some bt, some bw, some bh =>
    let l : ℚ := bl * W
    let t : ℚ := bt * H
    let w : ℚ := bw * W
    let h : ℚ := bh * H
    let s : ℚ := if scale ≤ 0 then 1 else scale
    let r := scaledRect W H l t w h s
    if degenerate r then
      let r0 := scaledRect W H l t w h 1
      if degenerate r0 then .error .invalidCropGeometry else .ok r0
    else
      .ok r
  | _, _, _, _ => .error .incompleteGeometry

/-- Modelled from the spec: `cropScaled` extracts the final rectangle's
pixels into a fresh buffer of exactly that rectangle's dimensions
(spec step 7), propagating the rectangle computation's errors. -/
def cropScaled (img : RasterImage) (bbox : NormalizedBoundingBox)
    (scale : ℚ) : Except CropError RasterImage :=
  match cropRect img.width img.height bbox scale with
  | .error e => .error e
  | .ok r =>
    .ok { width := r.x1 - r.x0
          height := r.y1 - r.y0
          pixelAt := fun x y => img.pixelAt (r.x0 + x) (r.y0 + y) }

/-- The bounding box used by the spec's worked examples. -/
def exampleBBox : NormalizedBoundingBox :=
  { left := some (1 / 4), top := some (1 / 4)
    width := some (1 / 2), height := some (1 / 2) }

/-- A small concrete test image (3 wide, 2 high) used to instantiate the
theorems with hypotheses. -/
def testImg : RasterImage :=
  { width := 3, height := 2, pixelAt := fun x y => 10 * x + y }

/-- A 100x100 concrete image used to instantiate the cropper theorems. -/
def img100 : RasterImage :=
  { width := 100, height := 100, pixelAt := fun x y => x + y }

/-!
Part 2: the Rekognition engine from `src/face/engine.go`.  The external
AWS calls (`DescribeCollection`, `CreateCollection`, `IndexFaces`,
`SearchFaces`, `SearchFacesByImage`) are abstracted as explicit result
parameters; the functions below embed the Go control flow around them.
-/

/-- Error result of the external `CreateCollection` call, distinguishing
`ResourceAlreadyExistsException` (which `errors.As` recognizes) from any
other failure. -/
inductive CreateCollectionError where
  | resourceAlreadyExists
  | other (msg : String)
deriving DecidableEq

/-- The function `createCollectionIfNotExists` from `engine.go`: if
`DescribeCollection` fails, try `CreateCollection`; absorb
`ResourceAlreadyExistsException`; propagate any other creation failure.
`describeResult` and `createResult` are the external calls' error results
(`none` = success). -/
def createCollectionIfNotExists (describeResult : Option String)
    (createResult : Option CreateCollectionError) : Option String :=
  match describeResult with
  | none => none
  | some _ =>
    match createResult with
    | none => none
    | some .resourceAlreadyExists => none
    | some (.other m) =>
      some ("eror is not ResourceAlreadyExistsException failed to create collection: " ++ m)

/-- Result of `IndexFace`, together with whether the external `IndexFaces`
API was reached. -/
structure IndexFaceTrace where
  err : Option String
  calledIndexFaces : Bool
deriving DecidableEq

/-- The function `IndexFace` from `engine.go`: ensure the collection
exists, then call the external `IndexFaces` API (whose outcome is
`indexResult`, carrying the face ids of the response's face records on
success). -/
def IndexFace (describeResult : Option String)
    (createResult : Option CreateCollectionError)
    (indexResult : Except String (List String)) : IndexFaceTrace :=
  match createCollectionIfNotExists describeResult createResult with
  | some e => ⟨some ("failed to ensure collection exists: " ++ e), false⟩
  | none =>
    match indexResult with
    | .error e => ⟨some ("failed to index face: " ++ e), true⟩
    | .ok _ => ⟨none, true⟩

/-- The collection loop of both search functions in `engine.go`: gather
the pointee of `ExternalImageId` for each face match whose
`ExternalImageId` pointer is non-nil, in match order. -/
def collectExternalImageIds : List (Option String) → List String
  | [] => []
  | some id :: rest => id :: collectExternalImageIds rest
  | none :: rest => collectExternalImageIds rest

/-- The helper `lo.Uniq` from the samber/lo library used by `engine.go`:
keep the first occurrence of each element, tracking already-seen
elements. -/
def loUniq (seen : List String) : List String → List String
  | [] => []
  | x :: xs =>
    if x ∈ seen then loUniq seen xs else x :: loUniq (x :: seen) xs

/-- Error result of the external `SearchFaces` call, distinguishing
`InvalidParameterException` from any other failure. -/
inductive SearchFacesError where
  | invalidParameter (msg : String)
  | other (msg : String)
deriving DecidableEq

/-- The function `SearchFacebyFaceId` from `engine.go`: on an external
`SearchFaces` failure wrap the error (with a special message for
`InvalidParameterException`); on success return the de-duplicated
external image ids of the face matches. -/
def SearchFacebyFaceId
    (searchResult : Except SearchFacesError (List (Option String))) :
    Except String (List String) :=
  match searchResult with
  | .error (.invalidParameter m) =>
    .error ("found this error when search face by id: " ++ m)
  | .error (.other m) =>
    .error ("failed to search face by id, [Invalid, please try again]: " ++ m)
  | .ok faceMatches =>
    .ok (loUniq [] (collectExternalImageIds faceMatches))

/-- The function `SearchFaceWithBucket` from `engine.go`: on an external
`SearchFacesByImage` failure wrap the error; on success return the
de-duplicated external image ids of the face matches. -/
def SearchFaceWithBucket
    (searchResult : Except String (List (Option String))) :
    Except String (List String) :=
  match searchResult with
  | .error e => .error ("failed to search face by image: " ++ e)
  | .ok faceMatches =>
    .ok (loUniq [] (collectExternalImageIds faceMatches))

/-- Return value of `SearchAndIndexSelfieFace` in `engine.go`:
`(faceId, matched ids, error)`. -/
structure SelfieSearchResult where
  faceId : String
  matched : Option (List String)
  err : Option String
deriving DecidableEq

/-- The function `SearchAndIndexSelfieFace` from `engine.go`: index the
selfie (`indexResult` carries the face ids of the response's face
records); fail when the call fails or reports no face records; otherwise
take the first face record's `FaceId` and search the collection with it
(`searchResult` is `SearchFacebyFaceId`'s outcome as a function of the
face id). -/
def SearchAndIndexSelfieFace (indexResult : Except String (List String))
    (searchResult : String → Except String (List String)) :
    SelfieSearchResult :=
  match indexResult with
  | .error e =>
    ⟨"", none, some ("search face failed: error when try to index selfie face: " ++ e)⟩
  | .ok faceIds =>
    match faceIds with
    | [] => ⟨"", none, some "search face failed: no face detected in the image"⟩
    | faceId :: _ =>
      match searchResult faceId with
      | .error e =>
        ⟨faceId, none, some ("search Face Failed: error when try to find selfie in collection: " ++ e)⟩
      | .ok ids => ⟨faceId, some ids, none⟩

/-- The first occurrence, in order, of each element of a list: the
reference description of first-occurrence de-duplication. -/
def firstOccurrences : List String → List String
  | [] => []
  | x :: xs => x :: firstOccurrences (xs.filter (fun y => y ≠ x))
termination_by l => l.length
decreasing_by
  simp only [List.length_cons]
  exact Nat.lt_succ_of_le (List.length_filter_le _ _)

/-!
Theorems.  Each claim's theorem is stated over the definitions above;
helper lemmas come first.
-/

/-- A complete bbox never yields the `IncompleteGeometry` error. -/
lemma cropRect_complete_ne_incomplete (W H : Nat) (bl bt bw bh scale : ℚ) :
    cropRect W H ⟨some bl, some bt, some bw, some bh⟩ scale ≠
      .error .incompleteGeometry := by
  unfold cropRect
  dsimp only
  split_ifs <;> simp

/-- When the rectangle computation succeeds, so does `cropScaled`. -/
lemma cropScaled_ok_of_rect (img : RasterImage)
    (bbox : NormalizedBoundingBox) (scale : ℚ) (r : PixelRect)
    (h : cropRect img.width img.height bbox scale = .ok r) :
    ∃ out, cropScaled img bbox scale = .ok out := by
  unfold cropScaled
  rw [h]
  exact ⟨_, rfl⟩

/-- The function `cropScaled` produces exactly the errors `cropRect`
produces. -/
lemma cropScaled_eq_error_iff (img : RasterImage)
    (bbox : NormalizedBoundingBox) (scale : ℚ) (e : CropError) :
    cropScaled img bbox scale = .error e ↔
      cropRect img.width img.height bbox scale = .error e := by
  unfold cropScaled
  split <;> simp_all

/-- Unfolding lemma for the ROTATE_90 case of `correct`. -/
lemma correct_rot90 (src : RasterImage) :
    correct src "ROTATE_90" =
      { width := src.height
        height := src.width
        pixelAt := fun X Y => src.pixelAt Y (src.height - 1 - X) } := by
  unfold correct
  rw [if_pos rfl]

/-- Unfolding lemma for the ROTATE_180 case of `correct`. -/
lemma correct_rot180 (src : RasterImage) :
    correct src "ROTATE_180" =
      { width := src.width
        height := src.height
        pixelAt := fun X Y =>
          src.pixelAt (src.width - 1 - X) (src.height - 1 - Y) } := by
  unfold correct
  rw [if_neg (by decide), if_pos rfl]

/-- Unfolding lemma for the ROTATE_270 case of `correct`. -/
lemma correct_rot270 (src : RasterImage) :
    correct src "ROTATE_270" =
      { width := src.height
        height := src.width
        pixelAt := fun X Y => src.pixelAt (src.width - 1 - Y) X } := by
  unfold correct
  rw [if_neg (by decide), if_neg (by decide), if_pos rfl]

/-- Elements produced by `loUniq` were not already seen. -/
lemma not_mem_seen_of_mem_loUniq (l : List String) :
    ∀ seen a, a ∈ loUniq seen l → a ∉ seen := by
  induction l with
  | nil => intro seen a h; simp [loUniq] at h
  | cons x xs ih =>
    intro seen a h
    by_cases hx : x ∈ seen
    · rw [loUniq, if_pos hx] at h
      exact ih seen a h
    · rw [loUniq, if_neg hx] at h
      rcases List.mem_cons.mp h with rfl | h
      · exact hx
      · intro ha
        exact ih (x :: seen) a h (List.mem_cons_of_mem x ha)

/-- Output of `loUniq` has no duplicates. -/
lemma loUniq_nodup (l : List String) : ∀ seen, (loUniq seen l).Nodup := by
  induction l with
  | nil => intro seen; simp [loUniq]
  | cons x xs ih =>
    intro seen
    by_cases hx : x ∈ seen
    · rw [loUniq, if_pos hx]
      exact ih seen
    · rw [loUniq, if_neg hx]
      refine List.nodup_cons.mpr ⟨fun hmem => ?_, ih (x :: seen)⟩
      exact not_mem_seen_of_mem_loUniq xs (x :: seen) x hmem
        (List.mem_cons_self x seen)

/-- Output of `loUniq` is the first occurrence of each not-yet-seen
element, in order. -/
lemma loUniq_eq_firstOccurrences (l : List String) :
    ∀ seen, loUniq seen l =
      firstOccurrences (l.filter (fun y => y ∉ seen)) := by
  induction l with
  | nil => intro seen; simp [loUniq, firstOccurrences]
  | cons x xs ih =>
    intro seen
    by_cases hx : x ∈ seen
    · rw [loUniq, if_pos hx, ih seen]
      congr 1
      simp [List.filter_cons, hx]
    · rw [loUniq, if_neg hx, ih (x :: seen)]
      have hfil : (x :: xs).filter (fun y => y ∉ seen) =
          x :: xs.filter (fun y => y ∉ seen) := by
        simp [List.filter_cons, hx]
      rw [hfil, firstOccurrences]
      congr 1
      rw [List.filter_filter]
      congr 1
      refine List.filter_congr fun y _ => ?_
      by_cases hxy : y = x <;> by_cases hys : y ∈ seen <;>
        simp [hxy, hys, List.mem_cons]

/-- With nothing seen yet, `loUniq` is exactly first-occurrence
de-duplication. -/
lemma loUniq_nil_eq (l : List String) :
    loUniq [] l = firstOccurrences l := by
  rw [loUniq_eq_firstOccurrences l []]
  congr 1
  simp

/-- C1: the orientation corrector's contract.  Unrecognized hints (which
include NONE) return the source unchanged; ROTATE_90 has dimensions (H,W)
and sends source pixel (x,y) to destination (H-1-y, x); ROTATE_180 keeps
(W,H) and sends (x,y) to (W-1-x, H-1-y); ROTATE_270 has dimensions (H,W)
and sends (x,y) to (y, W-1-x). -/
theorem correct_contract (src : RasterImage) (hint : String) (x y : Nat)
    (hx : x < src.width) (hy : y < src.height) :
    (hint ≠ "ROTATE_90" → hint ≠ "ROTATE_180" → hint ≠ "ROTATE_270" →
      correct src hint = src) ∧
    ((correct src "ROTATE_90").width = src.height ∧
      (correct src "ROTATE_90").height = src.width ∧
      (correct src "ROTATE_90").pixelAt (src.height - 1 - y) x =
        src.pixelAt x y) ∧
    ((correct src "ROTATE_180").width = src.width ∧
      (correct src "ROTATE_180").height = src.height ∧
      (correct src "ROTATE_180").pixelAt (src.width - 1 - x)
        (src.height - 1 - y) = src.pixelAt x y) ∧
    ((correct src "ROTATE_270").width = src.height ∧
      (correct src "ROTATE_270").height = src.width ∧
      (correct src "ROTATE_270").pixelAt y (src.width - 1 - x) =
        src.pixelAt x y) := by
  refine ⟨fun h90 h180 h270 => ?_, ?_, ?_, ?_⟩
  · unfold correct
    rw [if_neg h90, if_neg h180, if_neg h270]
  · rw [correct_rot90]
    refine ⟨rfl, rfl, ?_⟩
    have hyy : src.height - 1 - (src.height - 1 - y) = y := by omega
    simp only []
    rw [hyy]
  · rw [correct_rot180]
    refine ⟨rfl, rfl, ?_⟩
    have hxx : src.width - 1 - (src.width - 1 - x) = x := by omega
    have hyy : src.height - 1 - (src.height - 1 - y) = y := by omega
    simp only []
    rw [hxx, hyy]
  · rw [correct_rot270]
    refine ⟨rfl, rfl, ?_⟩
    have hxx : src.width - 1 - (src.width - 1 - x) = x := by omega
    simp only []
    rw [hxx]

/-- Witness for C1 at a concrete image, hint and coordinate. -/
theorem correct_contract_witness :
    correct testImg "NONE" = testImg ∧
    (correct testImg "ROTATE_90").pixelAt (testImg.height - 1 - 1) 2 =
      testImg.pixelAt 2 1 ∧
    (correct testImg "ROTATE_180").pixelAt (testImg.width - 1 - 2)
      (testImg.height - 1 - 1) = testImg.pixelAt 2 1 ∧
    (correct testImg "ROTATE_270").pixelAt 1 (testImg.width - 1 - 2) =
      testImg.pixelAt 2 1 := by
  obtain ⟨h0, h90, h180, h270⟩ :=
    correct_contract testImg "NONE" 2 1 (by decide) (by decide)
  exact ⟨h0 (by decide) (by decide) (by decide), h90.2.2, h180.2.2, h270.2.2⟩

/-- C2: the degeneracy fallback of `cropScaled` for a complete bbox.  If
the scaled, rounded and clamped rectangle is degenerate, the rectangle is
recomputed from the unscaled bbox; `cropScaled` fails (with
`InvalidCropGeometry`) only when the fallback is degenerate too, so a crop
is returned whenever the unscaled rectangle is non-degenerate. -/
theorem cropScaled_degeneracy_fallback (img : RasterImage)
    (bl bt bw bh scale : ℚ) :
    (degenerate (scaledRect img.width img.height (bl * img.width)
          (bt * img.height) (bw * img.width) (bh * img.height)
          (if scale ≤ 0 then 1 else scale)) = true ∧
      degenerate (scaledRect img.width img.height (bl * img.width)
          (bt * img.height) (bw * img.width) (bh * img.height) 1) = true →
        cropScaled img ⟨some bl, some bt, some bw, some bh⟩ scale =
          .error .invalidCropGeometry) ∧
    (degenerate (scaledRect img.width img.height (bl * img.width)
          (bt * img.height) (bw * img.width) (bh * img.height)
          (if scale ≤ 0 then 1 else scale)) = true ∧
      degenerate (scaledRect img.width img.height (bl * img.width)
          (bt * img.height) (bw * img.width) (bh * img.height) 1) = false →
        cropRect img.width img.height ⟨some bl, some bt, some bw, some bh⟩
            scale =
          .ok (scaledRect img.width img.height (bl * img.width)
            (bt * img.height) (bw * img.width) (bh * img.height) 1)) ∧
    (degenerate (scaledRect img.width img.height (bl * img.width)
          (bt * img.height) (bw * img.width) (bh * img.height) 1) = false →
        ∃ out, cropScaled img ⟨some bl, some bt, some bw, some bh⟩ scale =
          .ok out) := by
  refine ⟨?_, ?_, ?_⟩
  · rintro ⟨h1, h2⟩
    simp [cropScaled, cropRect, h1, h2]
  · rintro ⟨h1, h2⟩
    simp [cropRect, h1, h2]
  · intro h0
    by_cases hr : degenerate (scaledRect img.width img.height
        (bl * img.width) (bt * img.height) (bw * img.width)
        (bh * img.height) (if scale ≤ 0 then 1 else scale)) = true
    · exact cropScaled_ok_of_rect img _ scale
        (scaledRect img.width img.height (bl * img.width)
          (bt * img.height) (bw * img.width) (bh * img.height) 1)
        (by simp [cropRect, hr, h0])
    · exact cropScaled_ok_of_rect img _ scale
        (scaledRect img.width img.height (bl * img.width)
          (bt * img.height) (bw * img.width) (bh * img.height)
          (if scale ≤ 0 then 1 else scale))
        (by simp [cropRect, hr])

/-- Witness for C2: a bbox outside the image degenerates both rectangles
and yields `InvalidCropGeometry`; a tiny scale shrinks the rectangle to a
degenerate one while the unscaled fallback rectangle survives. -/
theorem cropScaled_degeneracy_fallback_witness :
    cropScaled img100 ⟨some 2, some 2, some (1 / 10), some (1 / 10)⟩
        (9 / 5) = .error .invalidCropGeometry ∧
    cropRect img100.width img100.height
        ⟨some (9 / 20), some (9 / 20), some (1 / 10), some (1 / 10)⟩
        (1 / 100) =
      .ok (scaledRect img100.width img100.height
        ((9 / 20) * img100.width) ((9 / 20) * img100.height)
        ((1 / 10) * img100.width) ((1 / 10) * img100.height) 1) := by
  constructor
  · exact (cropScaled_degeneracy_fallback img100 2 2 (1 / 10) (1 / 10)
      (9 / 5)).1 ⟨by norm_num [img100, scaledRect, roundClamp, clampTo,
        roundNearest, degenerate], by norm_num [img100, scaledRect,
        roundClamp, clampTo, roundNearest, degenerate]⟩
  · exact (cropScaled_degeneracy_fallback img100 (9 / 20) (9 / 20)
      (1 / 10) (1 / 10) (1 / 100)).2.1 ⟨by norm_num [img100, scaledRect,
        roundClamp, clampTo, roundNearest, degenerate], by norm_num
        [img100, scaledRect, roundClamp, clampTo, roundNearest,
          degenerate]⟩

/-- C3: `cropScaled` fails with `IncompleteGeometry` if and only if at
least one of the four bounding-box fields is absent; with a complete bbox
that error never occurs (no defaulting, no partial result). -/
theorem cropScaled_incomplete_iff (img : RasterImage)
    (bbox : NormalizedBoundingBox) (scale : ℚ) :
    cropScaled img bbox scale = .error .incompleteGeometry ↔
      bbox.left = none ∨ bbox.top = none ∨ bbox.width = none ∨
        bbox.height = none := by
  rw [cropScaled_eq_error_iff]
  rcases bbox with ⟨bl, bt, bw, bh⟩
  cases bl <;> cases bt <;> cases bw <;> cases bh <;>
    simp [cropRect_complete_ne_incomplete] <;> simp [cropRect]

/-- C4: On a 100x100 image with bbox {left:0.25, top:0.25, width:0.5,
height:0.5}, the crop rectangle at scale 1.0 is exactly (25,25)-(75,75),
and at scale 1.8 it is exactly (5,5)-(95,95). -/
theorem cropRect_example_rects :
    cropRect 100 100 exampleBBox 1 = .ok ⟨25, 25, 75, 75⟩ ∧
    cropRect 100 100 exampleBBox (9 / 5) = .ok ⟨5, 5, 95, 95⟩ := by
  constructor <;>
    (norm_num [cropRect, exampleBBox, scaledRect, roundClamp, clampTo,
      roundNearest, degenerate]
     all_goals omega)

/-- C5: applying the ROTATE_90 correction four times yields an image with
the original dimensions and the original pixel value at every in-bounds
coordinate. -/
theorem correct_rot90_four_times (src : RasterImage) (x y : Nat)
    (hx : x < src.width) (hy : y < src.height) :
    (correct (correct (correct (correct src "ROTATE_90") "ROTATE_90")
        "ROTATE_90") "ROTATE_90").width = src.width ∧
    (correct (correct (correct (correct src "ROTATE_90") "ROTATE_90")
        "ROTATE_90") "ROTATE_90").height = src.height ∧
    (correct (correct (correct (correct src "ROTATE_90") "ROTATE_90")
        "ROTATE_90") "ROTATE_90").pixelAt x y = src.pixelAt x y := by
  have hxx : src.width - 1 - (src.width - 1 - x) = x := by omega
  have hyy : src.height - 1 - (src.height - 1 - y) = y := by omega
  simp only [correct_rot90]
  rw [hxx, hyy]
  simp

/-- Witness for C5 at a concrete image and coordinate. -/
theorem correct_rot90_four_times_witness :
    (correct (correct (correct (correct testImg "ROTATE_90") "ROTATE_90")
        "ROTATE_90") "ROTATE_90").width = testImg.width ∧
    (correct (correct (correct (correct testImg "ROTATE_90") "ROTATE_90")
        "ROTATE_90") "ROTATE_90").height = testImg.height ∧
    (correct (correct (correct (correct testImg "ROTATE_90") "ROTATE_90")
        "ROTATE_90") "ROTATE_90").pixelAt 2 1 = testImg.pixelAt 2 1 :=
  correct_rot90_four_times testImg 2 1 (by decide) (by decide)

/-- C6: a scale factor `≤ 0` is treated as `1.0`: `cropScaled` returns the
same result as with scale `1.0`, for every image and bounding box. -/
theorem cropScaled_nonpositive_scale (img : RasterImage)
    (bbox : NormalizedBoundingBox) (scale : ℚ) (hs : scale ≤ 0) :
    cropScaled img bbox scale = cropScaled img bbox 1 := by
  have h1 : ¬ ((1 : ℚ) ≤ 0) := by norm_num
  rcases bbox with ⟨bl, bt, bw, bh⟩
  cases bl <;> cases bt <;> cases bw <;> cases bh <;>
    simp [cropScaled, cropRect, hs, h1]

/-- Witness for C6 at a concrete image, bbox and scale. -/
theorem cropScaled_nonpositive_scale_witness :
    cropScaled img100 exampleBBox (-1) = cropScaled img100 exampleBBox 1 :=
  cropScaled_nonpositive_scale img100 exampleBBox (-1) (by norm_num)

/-- C7: For bbox {left:0, top:0, width:0.1, height:0.1} on a 100x100 image
with scale 3.0, `cropScaled` does not fail: the proposed left and top
corners round to -10, are clamped to 0, and the resulting rectangle
(0,0)-(20,20) is non-empty. -/
theorem cropRect_edge_clamped :
    roundNearest ((0 : ℚ) * 100 + (1 / 10 : ℚ) * 100 / 2 -
      (1 / 10 : ℚ) * 100 * 3 / 2) = -10 ∧
    cropRect 100 100 ⟨some 0, some 0, some (1 / 10), some (1 / 10)⟩ 3 =
      .ok ⟨0, 0, 20, 20⟩ ∧
    degenerate ⟨0, 0, 20, 20⟩ = false := by
  refine ⟨?_, ?_, by decide⟩ <;>
    (norm_num [cropRect, scaledRect, roundClamp, clampTo, roundNearest,
      degenerate]
     all_goals omega)

/-- C8: both search functions succeed on a successful external response,
returning the first occurrence, in match order, of each non-absent
`ExternalImageId` (matches with an absent id are skipped), with no
duplicate entries. -/
theorem searchResults_firstOccurrences
    (faceMatches : List (Option String)) :
    SearchFacebyFaceId (.ok faceMatches) =
      .ok (firstOccurrences (collectExternalImageIds faceMatches)) ∧
    SearchFaceWithBucket (.ok faceMatches) =
      .ok (firstOccurrences (collectExternalImageIds faceMatches)) ∧
    (firstOccurrences (collectExternalImageIds faceMatches)).Nodup ∧
    collectExternalImageIds faceMatches = faceMatches.filterMap id := by
  refine ⟨?_, ?_, ?_, ?_⟩
  · rw [SearchFacebyFaceId, loUniq_nil_eq]
  · rw [SearchFaceWithBucket, loUniq_nil_eq]
  · rw [← loUniq_nil_eq]
    exact loUniq_nodup _ []
  · induction faceMatches with
    | nil => rfl
    | cons m rest ih =>
      cases m <;> simp [collectExternalImageIds, ih]

/-- C9: `SearchAndIndexSelfieFace` returns an error with an empty face id
and no match list when the external `IndexFaces` call succeeds with zero
face records; when at least one face record is present, the returned face
id is the first record's `FaceId`. -/
theorem selfieFace_faceId
    (searchResult : String → Except String (List String))
    (fid : String) (rest : List String) :
    SearchAndIndexSelfieFace (.ok []) searchResult =
      ⟨"", none, some "search face failed: no face detected in the image"⟩ ∧
    (SearchAndIndexSelfieFace (.ok (fid :: rest)) searchResult).faceId =
      fid := by
  refine ⟨rfl, ?_⟩
  cases h : searchResult fid <;> simp [SearchAndIndexSelfieFace, h]

/-- C10: `createCollectionIfNotExists` succeeds exactly when the collection
already exists (describe succeeds), is newly created (create succeeds), or
creation fails with `ResourceAlreadyExistsException`; and `IndexFace`
reaches the external `IndexFaces` API exactly when that check succeeds. -/
theorem createCollection_success_iff (d : Option String)
    (c : Option CreateCollectionError)
    (idx : Except String (List String)) :
    (createCollectionIfNotExists d c = none ↔
      d = none ∨ c = none ∨ c = some .resourceAlreadyExists) ∧
    ((IndexFace d c idx).calledIndexFaces = true ↔
      createCollectionIfNotExists d c = none) := by
  constructor
  · cases d <;> rcases c with _ | (_ | m) <;>
      simp [createCollectionIfNotExists]
  · cases h : createCollectionIfNotExists d c <;> cases idx <;>
      simp [IndexFace, h]

end AwsRekognition
